import Mathlib

/-!
Verification development for the sandboxed dynamic-script execution engine
in `src/action/executor.py`.

The embedding models:
  * JSON-ish Python values plus duck-typed tool-outcome objects (`PyVal`);
  * the result serializer `serialize_result` and the two embedded-failure
    detectors of `run_user_code` (string scan and structured-outcome scan);
  * the on-disk session store (`load_session_vars` / `save_session_vars`),
    with the filesystem abstracted as a map from session id to stored record;
  * the script syntax tree (`Expr` / `Stmt`), the AST transformations
    (`KeywordStripper`, `AwaitTransformer`, the return-shape rewrites), and
    the call-count complexity metric;
  * a fuel-based cooperative evaluator in which tool calls are the only
    suspension points, mirroring the asyncio semantics of the supervisor
    (`asyncio.wait_for` can cancel the task only when it suspends);
  * the envelope-producing driver `run_user_code`, and a text-level wrapper
    `run_user_code_text` that exposes the order of parsing vs. the
    triple-quote repair (the parser itself is a parameter, since the Python
    parser is external to the repository).

Wall-clock metadata (`execution_time`, `total_time`) and the duplicated
`raw` field of the response envelope are outside the embedding; envelopes
carry status, result mapping and error value.
-/

/-- Python values visible to the sandbox, as far as the executor inspects
them: JSON primitives and containers pass `isinstance` checks; `vObj`
models any other object through the attributes the executor probes with
`hasattr` (`success`, `content`, `error`, `text`), each `none` when the
attribute is absent, plus its `str()` rendering. Dict keys are modelled as
strings (the executor only ever builds and reads string-keyed mappings). -/
inductive PyVal where
  | vNone
  | vBool (b : Bool)
  | vInt (n : Int)
  | vStr (s : String)
  | vList (xs : List PyVal)
  | vDict (xs : List (String × PyVal))
  | vObj (success : Option Bool) (content : Option PyVal) (error : Option PyVal)
         (text : Option String) (strRepr : String)

/-- Python truthiness, used by `v.content if v.content else "Success"` and
`v.error if ... and v.error else ...`. -/
def pyTruthy : PyVal → Bool
  | .vNone => false
  | .vBool b => b
  | .vInt n => n != 0
  | .vStr s => s != ""
  | .vList xs => !xs.isEmpty
  | .vDict xs => !xs.isEmpty
  | .vObj _ _ _ _ _ => true

/-- `str(v)` for the values the executor interpolates into messages
(only the f-string `f"Error executing tool: {v.error}"` applies it to a
non-primitive). Containers render as placeholders: the executor never
stringifies a container on any path a claim touches, and modelling
Python repr of nested containers is out of scope. `vObj` uses its
recorded `str()` text. -/
def pyStr : PyVal → String
  | .vNone => "None"
  | .vBool true => "True"
  | .vBool false => "False"
  | .vInt n => toString n
  | .vStr s => s
  | .vList _ => "<list>"
  | .vDict _ => "<dict>"
  | .vObj _ _ _ _ r => r

/-- Lowercase a string, modelling Python `str.lower()` on ASCII content.
Implemented on the character list so it reduces definitionally. -/
def strLower (s : String) : String := ⟨s.data.map Char.toLower⟩

/-- Prefix test on strings, modelling Python `s.startswith(p)`.
Implemented on the character lists so it reduces definitionally. -/
def strStarts (s p : String) : Bool := p.data.isPrefixOf s.data

/-- Whether `pat` occurs as a contiguous sublist. -/
def listContainsSub (pat : List Char) : List Char → Bool
  | [] => pat.isEmpty
  | c :: rest => pat.isPrefixOf (c :: rest) || listContainsSub pat rest

/-- Substring test, modelling Python `pat in s`. -/
def strContains (s pat : String) : Bool := listContainsSub pat.data s.data

/-- Model of `serialize_result` (executor.py lines 261-272): JSON-compatible
values pass through unchanged; an object exposing `success`, `content` and
`error` becomes the prefixed error string when `success` is falsy, else its
content (or the literal `"Success"` when the content is falsy); an object
whose `content` is a list is joined from the text of its text-bearing
items; anything else is stringified. -/
def serialize_result : PyVal → PyVal
  | .vObj (some s) (some c) (some e) _ _ =>
      if s = false then .vStr ("Error executing tool: " ++ pyStr e)
      else if pyTruthy c then c else .vStr "Success"
  | .vObj _ (some (.vList items)) _ _ _ =>
      .vStr (String.intercalate "\n" (items.filterMap fun x =>
        match x with
        | .vObj _ _ _ (some t) _ => some t
        | _ => none))
  | .vObj _ _ _ _ r => .vStr r
  | v => v

/-- The string scan of executor.py lines 280-285: a serialized field value
signals failure when it is a string whose lowercase form starts with
"error executing tool" or "error:" or contains "failed". -/
def triggersErrorScan : PyVal → Bool
  | .vStr s =>
      strStarts (strLower s) "error executing tool" ||
      strStarts (strLower s) "error:" ||
      strContains (strLower s) "failed"
  | _ => false

/-- First serialized field value that triggers the string scan
(executor.py lines 280-291 return on the first match, in field order). -/
def scanError : List (String × PyVal) → Option PyVal
  | [] => none
  | (_, v) :: rest => if triggersErrorScan v then some v else scanError rest

/-- `hasattr(v, "success") and not v.success` (executor.py line 295),
with the success flag modelled as a boolean attribute. -/
def outcomeFailed : PyVal → Bool
  | .vObj (some s) _ _ _ _ => !s
  | _ => false

/-- `v.error if hasattr(v, "error") and v.error else f"Tool {k} failed"`
(executor.py line 296); the raw error attribute is used unchanged. -/
def outcomeErrMsg (k : String) : PyVal → PyVal
  | .vObj _ _ (some e) _ _ =>
      if pyTruthy e then e else .vStr ("Tool " ++ k ++ " failed")
  | _ => .vStr ("Tool " ++ k ++ " failed")

/-- The structured-outcome scan of executor.py lines 294-302: first entry of
the original (unserialized) mapping whose value has a falsy `success`
attribute, reported through `outcomeErrMsg`. -/
def structuredFailure : List (String × PyVal) → Option PyVal
  | [] => none
  | (k, v) :: rest =>
      if outcomeFailed v then some (outcomeErrMsg k v) else structuredFailure rest

/-- The persisted sandbox state: one optional record per session id,
abstracting the files under `action/sandbox_state/`. -/
def SessionStore : Type := String → Option (List (String × PyVal))

/-- Python `{**existing, **vars}`: keys of `existing` keep their order
and take the value from `vars` when present there; keys only in
`vars` follow in their own order. -/
def mergeDicts (existing vars : List (String × PyVal)) : List (String × PyVal) :=
  (existing.map fun p =>
    match vars.find? (fun q => q.1 = p.1) with
    | some q => (p.1, q.2)
    | none => p) ++
  vars.filter (fun q => existing.all (fun p => p.1 != q.1))

/-- Model of `load_session_vars` (executor.py lines 134-139): the stored
record, or the empty mapping when the file is missing. -/
def load_session_vars (store : SessionStore) (session_id : String) : List (String × PyVal) :=
  (store session_id).getD []

/-- Model of `save_session_vars` (executor.py lines 116-131): merge the
given mapping over any existing record for the id and persist the result. -/
def save_session_vars (store : SessionStore) (session_id : String)
    (vars : List (String × PyVal)) : SessionStore :=
  let existing := (store session_id).getD []
  let merged := mergeDicts existing vars
  fun sid => if sid = session_id then some merged else store sid

/-- Lookup in a string-keyed record, modelling Python `m.get(k)`. -/
def lookupD (m : List (String × PyVal)) (k : String) : Option PyVal :=
  (m.find? (fun p => p.1 = k)).map Prod.snd

/-- The empty session store: no session has a record. -/
def emptyStore : SessionStore := fun _ => none

/-- Script expressions, mirroring the `ast` nodes the executor touches:
constants, names, calls with positional and keyword arguments, dict
literals with constant string keys (the only keys the return rewrite
produces), and `await` markers inserted by the `AwaitTransformer`. -/
inductive Expr where
  | const (v : PyVal)
  | name (x : String)
  | call (f : String) (args : List Expr) (kwargs : List (String × Expr))
  | dictLit (entries : List (String × Expr))
  | awaitE (e : Expr)

/-- Top-level and nested statements of a script: assignments to name
targets, `return`, expression statements, `while`, and `pass`. -/
inductive Stmt where
  | assign (targets : List String) (value : Expr)
  | ret (value : Option Expr)
  | exprStmt (e : Expr)
  | whileStmt (cond : Expr) (body : List Stmt)
  | passStmt

mutual

/-- `KeywordStripper.visit_Call` (executor.py lines 50-59): children are
visited first, then every keyword argument value is appended to the
positional arguments, in call-site order, and the keyword list emptied. -/
def stripKeywordsExpr : Expr → Expr
  | .const v => .const v
  | .name x => .name x
  | .call f args kws => .call f (stripKeywordsArgs args ++ stripKeywordsKws kws) []
  | .dictLit es => .dictLit (stripKeywordsEntries es)
  | .awaitE e => .awaitE (stripKeywordsExpr e)

def stripKeywordsArgs : List Expr → List Expr
  | [] => []
  | e :: es => stripKeywordsExpr e :: stripKeywordsArgs es

def stripKeywordsKws : List (String × Expr) → List Expr
  | [] => []
  | (_, e) :: es => stripKeywordsExpr e :: stripKeywordsKws es

def stripKeywordsEntries : List (String × Expr) → List (String × Expr)
  | [] => []
  | (k, e) :: es => (k, stripKeywordsExpr e) :: stripKeywordsEntries es

end

mutual

/-- Statement-level traversal of the `KeywordStripper` pass. -/
def stripKeywordsStmt : Stmt → Stmt
  | .assign ts e => .assign ts (stripKeywordsExpr e)
  | .ret (some e) => .ret (some (stripKeywordsExpr e))
  | .ret none => .ret none
  | .exprStmt e => .exprStmt (stripKeywordsExpr e)
  | .whileStmt c body => .whileStmt (stripKeywordsExpr c) (stripKeywordsBody body)
  | .passStmt => .passStmt

/-- Statement-list traversal of the `KeywordStripper` pass. -/
def stripKeywordsBody : List Stmt → List Stmt
  | [] => []
  | s :: rest => stripKeywordsStmt s :: stripKeywordsBody rest

end

mutual

/-- `AwaitTransformer.visit_Call` (executor.py lines 65-73): children are
visited first, then any call whose function is a name in the async tool
set is wrapped in `await`. -/
def awaitTransformExpr (tools : List String) : Expr → Expr
  | .const v => .const v
  | .name x => .name x
  | .call f args kws =>
      let c := Expr.call f (awaitTransformArgs tools args) (awaitTransformKws tools kws)
      if tools.contains f then .awaitE c else c
  | .dictLit es => .dictLit (awaitTransformKws tools es)
  | .awaitE e => .awaitE (awaitTransformExpr tools e)

def awaitTransformArgs (tools : List String) : List Expr → List Expr
  | [] => []
  | e :: es => awaitTransformExpr tools e :: awaitTransformArgs tools es

def awaitTransformKws (tools : List String) : List (String × Expr) → List (String × Expr)
  | [] => []
  | (k, e) :: es => (k, awaitTransformExpr tools e) :: awaitTransformKws tools es

end

mutual

/-- Statement-level traversal of the `AwaitTransformer` pass. -/
def awaitTransformStmt (tools : List String) : Stmt → Stmt
  | .assign ts e => .assign ts (awaitTransformExpr tools e)
  | .ret (some e) => .ret (some (awaitTransformExpr tools e))
  | .ret none => .ret none
  | .exprStmt e => .exprStmt (awaitTransformExpr tools e)
  | .whileStmt c body => .whileStmt (awaitTransformExpr tools c) (awaitTransformBody tools body)
  | .passStmt => .passStmt

/-- Statement-list traversal of the `AwaitTransformer` pass. -/
def awaitTransformBody (tools : List String) : List Stmt → List Stmt
  | [] => []
  | s :: rest => awaitTransformStmt tools s :: awaitTransformBody tools rest

end

mutual

/-- Count of call expressions in an expression, the executor's complexity
metric (`count_function_calls` sums `isinstance(node, ast.Call)` over
`ast.walk`, executor.py lines 142-144). -/
def countCallsExpr : Expr → Nat
  | .const _ => 0
  | .name _ => 0
  | .call _ args kws => 1 + countCallsArgs args + countCallsKws kws
  | .dictLit es => countCallsKws es
  | .awaitE e => countCallsExpr e

def countCallsArgs : List Expr → Nat
  | [] => 0
  | e :: es => countCallsExpr e + countCallsArgs es

def countCallsKws : List (String × Expr) → Nat
  | [] => 0
  | (_, e) :: es => countCallsExpr e + countCallsKws es

end

mutual

/-- Call expressions in a statement. -/
def countCallsStmt : Stmt → Nat
  | .assign _ e => countCallsExpr e
  | .ret (some e) => countCallsExpr e
  | .ret none => 0
  | .exprStmt e => countCallsExpr e
  | .whileStmt c body => countCallsExpr c + countCallsStmts body
  | .passStmt => 0

/-- Call expressions in a statement list: the model of
`count_function_calls` on a parsed script. -/
def countCallsStmts : List Stmt → Nat
  | [] => 0
  | s :: rest => countCallsStmt s + countCallsStmts rest

end

mutual

/-- Whether an expression contains an `await` marker, i.e. a suspension
point for the cooperative scheduler. -/
def hasAwaitExpr : Expr → Bool
  | .const _ => false
  | .name _ => false
  | .call _ args kws => hasAwaitArgs args || hasAwaitKws kws
  | .dictLit es => hasAwaitKws es
  | .awaitE _ => true

def hasAwaitArgs : List Expr → Bool
  | [] => false
  | e :: es => hasAwaitExpr e || hasAwaitArgs es

def hasAwaitKws : List (String × Expr) → Bool
  | [] => false
  | (_, e) :: es => hasAwaitExpr e || hasAwaitKws es

end

mutual

/-- Whether a statement contains a suspension point. -/
def hasAwaitStmt : Stmt → Bool
  | .assign _ e => hasAwaitExpr e
  | .ret (some e) => hasAwaitExpr e
  | .ret none => false
  | .exprStmt e => hasAwaitExpr e
  | .whileStmt c body => hasAwaitExpr c || hasAwaitStmts body
  | .passStmt => false

/-- Whether a statement list contains a suspension point. -/
def hasAwaitStmts : List Stmt → Bool
  | [] => false
  | s :: rest => hasAwaitStmt s || hasAwaitStmts rest

end

/-- The rewrite of executor.py lines 199-218 applied to one top-level
statement: `return <name>` becomes `return {"<name>": <name>}`; every
other statement is passed through. -/
def rewriteReturn : Stmt → Stmt
  | .ret (some (.name x)) => .ret (some (.dictLit [(x, .name x)]))
  | s => s

/-- Whether the top-level statement list contains any `return`
(the `return_found` flag of the same loop). -/
def returnFound (body : List Stmt) : Bool :=
  body.any fun s =>
    match s with
    | .ret _ => true
    | _ => false

/-- The names assigned at top level (`result_vars`, executor.py lines
226-230: first target of each assignment whose first target is a name). -/
def resultVars (body : List Stmt) : List String :=
  body.filterMap fun s =>
    match s with
    | .assign (t :: _) _ => some t
    | _ => none

/-- The Result-Shape Normalizer (executor.py lines 199-238): rewrite bare
identifier returns, then, when no top-level return exists but some
top-level assignment targets `result`, append `return result`.
The appended return is a plain name return: it is added after the
rewrite loop and is therefore not itself rewritten to dict form. -/
def normalizeBody (body : List Stmt) : List Stmt :=
  let newBody := body.map rewriteReturn
  if returnFound body then newBody
  else if (resultVars body).contains "result" then
    newBody ++ [.ret (some (.name "result"))]
  else newBody

/-- The whole preprocessor pipeline applied to a parsed tree
(executor.py lines 196-238): keyword stripping, await marking for the
given tool-name set, then return-shape normalization. -/
def preprocess (tools : List String) (body : List Stmt) : List Stmt :=
  normalizeBody (awaitTransformBody tools (stripKeywordsBody body))

/-- Behaviour of one registered external tool: the value its proxy returns
for given positional arguments, and the simulated number of seconds the
awaiting task stays suspended on the call. -/
structure ToolSpec where
  result : List PyVal → PyVal
  duration : Nat

/-- The per-request capability environment: the registered tool proxies
(`make_tool_proxy` over `multi_mcp.get_all_tools()`), and the synchronous
allow-listed callables (safe builtins and whitelisted modules), each
returning either a value or a raised exception kind and message. -/
structure Cfg where
  tools : List (String × ToolSpec)
  pureFuncs : List (String × (List PyVal → Except (String × String) PyVal))

/-- Mutable evaluation state: local variables of the wrapped `__main`,
the sandbox globals dict (session variables, plus whatever `final_answer`
stores), the seconds elapsed across suspensions, and the log of tool
invocations dispatched so far. -/
structure ExecState where
  locals : List (String × PyVal)
  globalsMap : List (String × PyVal)
  elapsed : Nat
  calls : List (String × List PyVal)

/-- Result of evaluating an expression (or a list of them): a value, a
raised Python exception (kind and message), or cooperative cancellation
by the timeout at a suspension point. Plain expressions cannot diverge. -/
inductive EResT (α : Type) where
  | ok (v : α) (st : ExecState)
  | exn (kind msg : String) (st : ExecState)
  | timeoutRes (st : ExecState)

/-- Result of executing a statement list: fell off the end, returned a
value, raised, was cancelled by the timeout, or exhausted the fuel bound
(i.e. looped longer than the modelled iteration budget). -/
inductive SRes where
  | normal (st : ExecState)
  | returned (v : PyVal) (st : ExecState)
  | exnS (kind msg : String) (st : ExecState)
  | timeoutS (st : ExecState)
  | spin

/-- Name lookup: function locals first, then the sandbox globals. -/
def lookupVar (st : ExecState) (x : String) : Option PyVal :=
  match st.locals.find? (fun p => p.1 = x) with
  | some p => some p.2
  | none => (st.globalsMap.find? (fun p => p.1 = x)).map Prod.snd

/-- Set a variable in a record, keeping first-assignment order. -/
def setVar (m : List (String × PyVal)) (x : String) (v : PyVal) : List (String × PyVal) :=
  if m.any (fun p => p.1 = x) then
    m.map (fun p => if p.1 = x then (x, v) else p)
  else m ++ [(x, v)]

/-- Assign a value to every target of an assignment statement. -/
def assignTargets (ts : List String) (v : PyVal) (st : ExecState) : ExecState :=
  { st with locals := ts.foldl (fun m x => setVar m x v) st.locals }

/-- Tool lookup in the capability environment. -/
def lookupTool (cfg : Cfg) (f : String) : Option ToolSpec :=
  (cfg.tools.find? (fun p => p.1 = f)).map Prod.snd

/-- Synchronous callable lookup in the capability environment. -/
def lookupPure (cfg : Cfg) (f : String) :
    Option (List PyVal → Except (String × String) PyVal) :=
  (cfg.pureFuncs.find? (fun p => p.1 = f)).map Prod.snd

/-- Dispatch of a plain (non-awaited) call `f(argv)`. Resolution follows
the sandbox namespace built by `build_safe_globals`: a bound variable
shadows everything (session variables are merged over the callables, so
calling plain data raises TypeError); `final_answer` is the lambda of
executor.py line 97, whose `setdefault` stores its argument under
`result_holder` only when absent and returns the stored value; a tool
name yields a coroutine object, since the proxies are async and this
call is not awaited; otherwise an allow-listed callable runs, or
NameError is raised. Keyword arguments never reach execution (the
`KeywordStripper` runs first), so a call carrying any is rejected by
the model. -/
def callFunction (cfg : Cfg) (f : String) (argv : List PyVal) (kwc : Nat)
    (st : ExecState) : EResT PyVal :=
  match lookupVar st f with
  | some _ => .exn "TypeError" "object is not callable" st
  | none =>
    if kwc != 0 then
      .exn "TypeError" "keyword arguments are outside the execution model" st
    else if f = "final_answer" then
      match argv with
      | [x] =>
        match st.globalsMap.find? (fun p => p.1 = "result_holder") with
        | some p => .ok p.2 st
        | none => .ok x { st with globalsMap := st.globalsMap ++ [("result_holder", x)] }
      | _ => .exn "TypeError" "final_answer() takes exactly one argument" st
    else
      match lookupTool cfg f with
      | some _ => .ok (.vObj none none none none "<coroutine object __main>") st
      | none =>
        match lookupPure cfg f with
        | some fn =>
          match fn argv with
          | .ok v => .ok v st
          | .error (k, m) => .exn k m st
        | none => .exn "NameError" ("name \x27" ++ f ++ "\x27 is not defined") st

/-- Dispatch of an awaited tool call: the only suspension point of the
cooperative model. The invocation is dispatched (logged), the task
suspends for the tool's duration, and if the `asyncio.wait_for` budget
`tmo` expires by the time the suspension ends, the task is cancelled
there and the supervisor reports a timeout; there is no preemption
anywhere else. -/
def awaitCall (cfg : Cfg) (tmo : Nat) (f : String) (argv : List PyVal) (kwc : Nat)
    (st : ExecState) : EResT PyVal :=
  match lookupVar st f with
  | some _ => .exn "TypeError" "object is not callable" st
  | none =>
    match lookupTool cfg f with
    | some spec =>
      if kwc != 0 then
        .exn "TypeError" "keyword arguments are outside the execution model" st
      else
        let st1 := { st with calls := st.calls ++ [(f, argv)],
                             elapsed := st.elapsed + spec.duration }
        if tmo ≤ st1.elapsed then .timeoutRes st1
        else .ok (spec.result argv) st1
    | none =>
      match callFunction cfg f argv kwc st with
      | .ok _ st1 => .exn "TypeError" "object is not awaitable" st1
      | r => r

mutual

/-- Expression evaluation. Awaited tool calls are suspension points; all
other evaluation is uninterruptible, matching the single-threaded
cooperative model of the supervisor. -/
def evalExpr (cfg : Cfg) (tmo : Nat) : Expr → ExecState → EResT PyVal
  | .const v, st => .ok v st
  | .name x, st =>
    match lookupVar st x with
    | some v => .ok v st
    | none => .exn "NameError" ("name \x27" ++ x ++ "\x27 is not defined") st
  | .call f args kws, st =>
    match evalArgs cfg tmo args st with
    | .ok argv st1 =>
      match evalKwValues cfg tmo kws st1 with
      | .ok kwv st2 => callFunction cfg f (argv ++ kwv) kws.length st2
      | .exn k m st2 => .exn k m st2
      | .timeoutRes st2 => .timeoutRes st2
    | .exn k m st1 => .exn k m st1
    | .timeoutRes st1 => .timeoutRes st1
  | .dictLit es, st =>
    match evalEntries cfg tmo es st with
    | .ok vs st1 => .ok (.vDict vs) st1
    | .exn k m st1 => .exn k m st1
    | .timeoutRes st1 => .timeoutRes st1
  | .awaitE (.call f args kws), st =>
    match evalArgs cfg tmo args st with
    | .ok argv st1 =>
      match evalKwValues cfg tmo kws st1 with
      | .ok kwv st2 => awaitCall cfg tmo f (argv ++ kwv) kws.length st2
      | .exn k m st2 => .exn k m st2
      | .timeoutRes st2 => .timeoutRes st2
    | .exn k m st1 => .exn k m st1
    | .timeoutRes st1 => .timeoutRes st1
  | .awaitE e, st =>
    match evalExpr cfg tmo e st with
    | .ok _ st1 => .exn "TypeError" "object is not awaitable" st1
    | r => r

/-- Left-to-right evaluation of an argument list, threading state. -/
def evalArgs (cfg : Cfg) (tmo : Nat) : List Expr → ExecState → EResT (List PyVal)
  | [], st => .ok [] st
  | e :: es, st =>
    match evalExpr cfg tmo e st with
    | .ok v st1 =>
      match evalArgs cfg tmo es st1 with
      | .ok vs st2 => .ok (v :: vs) st2
      | .exn k m st2 => .exn k m st2
      | .timeoutRes st2 => .timeoutRes st2
    | .exn k m st1 => .exn k m st1
    | .timeoutRes st1 => .timeoutRes st1

/-- Left-to-right evaluation of keyword-argument values. -/
def evalKwValues (cfg : Cfg) (tmo : Nat) : List (String × Expr) → ExecState → EResT (List PyVal)
  | [], st => .ok [] st
  | (_, e) :: es, st =>
    match evalExpr cfg tmo e st with
    | .ok v st1 =>
      match evalKwValues cfg tmo es st1 with
      | .ok vs st2 => .ok (v :: vs) st2
      | .exn k m st2 => .exn k m st2
      | .timeoutRes st2 => .timeoutRes st2
    | .exn k m st1 => .exn k m st1
    | .timeoutRes st1 => .timeoutRes st1

/-- Left-to-right evaluation of dict-literal entries. -/
def evalEntries (cfg : Cfg) (tmo : Nat) :
    List (String × Expr) → ExecState → EResT (List (String × PyVal))
  | [], st => .ok [] st
  | (k, e) :: es, st =>
    match evalExpr cfg tmo e st with
    | .ok v st1 =>
      match evalEntries cfg tmo es st1 with
      | .ok vs st2 => .ok ((k, v) :: vs) st2
      | .exn k1 m st2 => .exn k1 m st2
      | .timeoutRes st2 => .timeoutRes st2
    | .exn k1 m st1 => .exn k1 m st1
    | .timeoutRes st1 => .timeoutRes st1

end

/-- Statement execution with a fuel bound. Fuel is consumed at every
execution step, so `SRes.spin` means the run was still going at the given
bound: a script diverges iff it spins for every fuel, and a terminating
run is insensitive to any sufficiently large fuel. A `return` inside a
loop propagates out; so do exceptions and cooperative cancellation. -/
def evalStmts (cfg : Cfg) (tmo : Nat) : Nat → List Stmt → ExecState → SRes
  | 0, _, _ => .spin
  | _ + 1, [], st => .normal st
  | fuel + 1, s :: rest, st =>
    match s with
    | .passStmt => evalStmts cfg tmo fuel rest st
    | .assign ts e =>
      match evalExpr cfg tmo e st with
      | .ok v st1 => evalStmts cfg tmo fuel rest (assignTargets ts v st1)
      | .exn k m st1 => .exnS k m st1
      | .timeoutRes st1 => .timeoutS st1
    | .ret none => .returned .vNone st
    | .ret (some e) =>
      match evalExpr cfg tmo e st with
      | .ok v st1 => .returned v st1
      | .exn k m st1 => .exnS k m st1
      | .timeoutRes st1 => .timeoutS st1
    | .exprStmt e =>
      match evalExpr cfg tmo e st with
      | .ok _ st1 => evalStmts cfg tmo fuel rest st1
      | .exn k m st1 => .exnS k m st1
      | .timeoutRes st1 => .timeoutS st1
    | .whileStmt c body =>
      match evalExpr cfg tmo c st with
      | .ok v st1 =>
        if pyTruthy v then
          match evalStmts cfg tmo fuel body st1 with
          | .normal st2 => evalStmts cfg tmo fuel (s :: rest) st2
          | r => r
        else evalStmts cfg tmo fuel rest st1
      | .exn k m st1 => .exnS k m st1
      | .timeoutRes st1 => .timeoutS st1

/-- The process-boundary response envelope (executor.py returns a dict
with `status` plus `result` on success or `error` on failure; wall-clock
timing fields and the duplicated `raw` field are not modelled). The error
slot holds a `PyVal` because the structured-outcome path stores the raw
`error` attribute, which need not be a string. -/
structure Envelope where
  status : String
  result : Option (List (String × PyVal))
  error : Option PyVal

/-- What one call to `run_user_code` produces: the returned envelope
(`none` models a call that never returns because the script loops without
ever suspending), the session store after the call, and the tool
invocations dispatched. When the envelope is `none` the call log is not
observable (the call never returned) and is reported empty. -/
structure RunResult where
  envelope : Option Envelope
  store : SessionStore
  calls : List (String × List PyVal)

/-- `MAX_FUNCTIONS` (executor.py line 47). -/
def MAX_FUNCTIONS : Nat := 20

/-- `TIMEOUT_PER_FUNCTION` (executor.py line 48). -/
def TIMEOUT_PER_FUNCTION : Nat := 50

/-- The four browser tool names special-cased by the NameError handler
(executor.py line 370). -/
def browser_tool_names : List String :=
  ["open_tab", "search_google", "input_text_by_index", "click_element_by_index"]

/-- The Error Classifier (executor.py lines 331-478) for the exception
kinds the model can raise. NameError gets the misspelled-name hint, or the
browser-tools hint when the message names one of the optional browser
capabilities; ValueError gets the argument-mismatch hint when its message
mentions "expects" and "args"; every other kind goes through the generic
`except Exception` handler with its dependency and tool hints. The
UnboundLocalError and AttributeError handlers are unreachable here: the
model has neither read-before-assignment locals nor attribute access. -/
def classify_exception (kind msg : String) : PyVal :=
  if kind = "NameError" then
    if browser_tool_names.any (fun t => strContains msg t) then
      .vStr (kind ++ ": " ++ msg ++
        "\n\n⚠️  Browser tools are not available. Make sure the browser MCP server is running:\n   uv run .\\browserMCP\\browser_mcp_sse.py")
    else
      .vStr (kind ++ ": " ++ msg ++
        "\n\n💡 This usually means a function or variable name is misspelled or not defined.")
  else if kind = "ValueError" then
    if strContains msg "expects" && strContains msg "args" then
      .vStr ("ValueError: Tool argument mismatch.\n" ++ msg ++
        "\n\n💡 Fix: Check the tool\x27s expected arguments and provide them in the correct order.")
    else .vStr ("ValueError: " ++ msg)
  else
    if strContains msg "Executable doesn\x27t exist" || strContains msg "chrome.exe" then
      .vStr (kind ++ ": " ++ msg ++
        "\n\n⚠️  Playwright browser executable not found. Run: python -m playwright install chromium")
    else if strContains msg "Tool" || strContains (strLower msg) "tool" then
      .vStr (kind ++ ": " ++ msg ++
        "\n\n💡 This might be a tool execution error. Check:\n  1. Tool name is correct\n  2. Arguments match the tool\x27s expected format\n  3. Tool returned valid data (not an error message)")
    else .vStr (kind ++ ": " ++ msg)

/-- Result collection after `__main` finished (executor.py lines 258-322):
a dict return is serialized field-by-field (the single-key special case of
line 274 is immediately overwritten by the general dict case of line 276
and has no effect), then scanned for error-signalling strings and for
structured outcomes with a falsy success flag — in that order, both scans
only on the dict path; any other return value is wrapped as
`{"result": serialized}` with no scan at all. Only the success path saves
the session record. -/
def finishResult (store : SessionStore) (session_id : String) (returned : PyVal)
    (st : ExecState) : RunResult :=
  match returned with
  | .vDict entries =>
    let result_value := entries.map (fun p => (p.1, serialize_result p.2))
    match scanError result_value with
    | some v => ⟨some ⟨"error", none, some v⟩, store, st.calls⟩
    | none =>
      match structuredFailure entries with
      | some msg => ⟨some ⟨"error", none, some msg⟩, store, st.calls⟩
      | none =>
        ⟨some ⟨"success", some result_value, none⟩,
         save_session_vars store session_id result_value, st.calls⟩
  | v =>
    let result_value := [("result", serialize_result v)]
    ⟨some ⟨"success", some result_value, none⟩,
     save_session_vars store session_id result_value, st.calls⟩

/-- Model of `run_user_code` (executor.py lines 152-330) on a parsed tree.
The complexity pre-check rejects before anything else runs; otherwise the
session variables are loaded into the sandbox globals, the tree is
preprocessed, and the wrapped `__main` runs under the budget
`max(3, func_count * 50)` with tool calls as the only suspension points.
A completed run goes through `finishResult`; a raise is classified; a
cooperative cancellation yields the timeout envelope, whose message uses
the unclamped product `func_count * 50`. `fuel` bounds the modelled loop
iterations: an execution still spinning at that bound has produced no
envelope, and a script that spins at every fuel never returns at all. -/
def run_user_code (cfg : Cfg) (fuel : Nat) (store : SessionStore)
    (session_id : String) (body : List Stmt) : RunResult :=
  let func_count := countCallsStmts body
  if MAX_FUNCTIONS < func_count then
    ⟨some ⟨"error", none,
      some (.vStr ("Too many functions (" ++ toString func_count ++ " > " ++
        toString MAX_FUNCTIONS ++ ")"))⟩, store, []⟩
  else
    let transformed := preprocess (cfg.tools.map Prod.fst) body
    let tmo := max 3 (func_count * TIMEOUT_PER_FUNCTION)
    let st0 : ExecState := ⟨[], load_session_vars store session_id, 0, []⟩
    match evalStmts cfg tmo fuel transformed st0 with
    | .spin => ⟨none, store, []⟩
    | .timeoutS st =>
      ⟨some ⟨"error", none,
        some (.vStr ("Execution timed out after " ++
          toString (func_count * TIMEOUT_PER_FUNCTION) ++ " seconds"))⟩, store, st.calls⟩
    | .exnS k m st =>
      ⟨some ⟨"error", none, some (classify_exception k m)⟩, store, st.calls⟩
    | .normal st => finishResult store session_id .vNone st
    | .returned v st => finishResult store session_id v st

/-- Non-overlapping, left-to-right count of the three-double-quote
delimiter in a character stream, modelling `re.findall(r\x27"""\x27, code)`. -/
def countTripleQuotes : List Char → Nat
  | '"' :: '"' :: '"' :: rest => countTripleQuotes rest + 1
  | _ :: rest => countTripleQuotes rest
  | [] => 0

/-- Model of `fix_unterminated_triple_quotes` (executor.py lines 77-83):
when the count of triple-quote delimiters is odd, append a closing one on
a new line; otherwise return the text unchanged. -/
def fix_unterminated_triple_quotes (code : String) : String :=
  if countTripleQuotes code.data % 2 != 0 then code ++ "\n\"\"\"" else code

/-- Python whitespace for `str.strip()`. -/
def isPyWs (c : Char) : Bool :=
  c = ' ' || c = '\t' || c = '\n' || c = '\r' || c = '\x0b' || c = '\x0c'

/-- Python `str.strip()` on the whole script text. Implemented on the
character list so it reduces definitionally. -/
def pyStrip (s : String) : String :=
  ⟨((s.data.dropWhile isPyWs).reverse.dropWhile isPyWs).reverse⟩

/-- Split a character stream at newlines. -/
def splitLines : List Char → List (List Char)
  | [] => [[]]
  | '\n' :: rest => [] :: splitLines rest
  | c :: rest =>
    match splitLines rest with
    | l :: ls => (c :: l) :: ls
    | [] => [[c]]

/-- Join lines with newlines, inverse of `splitLines`. -/
def joinLines : List (List Char) → List Char
  | [] => []
  | [l] => l
  | l :: ls => l ++ '\n' :: joinLines ls

/-- Whether a line is blank for margin purposes (empty or whitespace). -/
def lineIsBlank (l : List Char) : Bool := l.all (fun c => c = ' ' || c = '\t')

/-- Longest common prefix of two whitespace runs. -/
def commonWsPrefix2 : List Char → List Char → List Char
  | x :: xs, y :: ys =>
    if x = y && (x = ' ' || x = '\t') then x :: commonWsPrefix2 xs ys else []
  | _, _ => []

/-- Model of `textwrap.dedent`: remove the longest common leading
whitespace of the non-blank lines from every line that carries it. -/
def textwrap_dedent (s : String) : String :=
  let lines := splitLines s.data
  let margins := (lines.filter (fun l => !lineIsBlank l)).map
    (fun l => l.takeWhile (fun c => c = ' ' || c = '\t'))
  let margin : List Char :=
    match margins with
    | [] => []
    | m :: ms => ms.foldl commonWsPrefix2 m
  ⟨joinLines (lines.map fun l =>
    if l.take margin.length = margin then l.drop margin.length else l)⟩

/-- Model of `run_user_code` from the script text down (executor.py lines
152-330), with the Python parser abstracted as the `parse` parameter (it
is external to the repository). The order of operations is the code's:
`count_function_calls` parses the RAW text first (line 160 calling line
143), so a text-level malformation raises SyntaxError there, is caught by
the generic `except Exception` handler, and produces an error envelope —
before `fix_unterminated_triple_quotes` is ever consulted; only after the
complexity check does the cleaned text `fix(dedent(strip(code)))` get
parsed (lines 192-193) and executed. -/
def run_user_code_text (parse : String → Except String (List Stmt)) (cfg : Cfg)
    (fuel : Nat) (store : SessionStore) (session_id : String)
    (codeText : String) : RunResult :=
  match parse codeText with
  | .error msg =>
    ⟨some ⟨"error", none, some (classify_exception "SyntaxError" msg)⟩, store, []⟩
  | .ok rawTree =>
    let func_count := countCallsStmts rawTree
    if MAX_FUNCTIONS < func_count then
      ⟨some ⟨"error", none,
        some (.vStr ("Too many functions (" ++ toString func_count ++ " > " ++
          toString MAX_FUNCTIONS ++ ")"))⟩, store, []⟩
    else
      match parse (fix_unterminated_triple_quotes (textwrap_dedent (pyStrip codeText))) with
      | .error msg =>
        ⟨some ⟨"error", none, some (classify_exception "SyntaxError" msg)⟩, store, []⟩
      | .ok tree =>
        let transformed := preprocess (cfg.tools.map Prod.fst) tree
        let tmo := max 3 (func_count * TIMEOUT_PER_FUNCTION)
        let st0 : ExecState := ⟨[], load_session_vars store session_id, 0, []⟩
        match evalStmts cfg tmo fuel transformed st0 with
        | .spin => ⟨none, store, []⟩
        | .timeoutS st =>
          ⟨some ⟨"error", none,
            some (.vStr ("Execution timed out after " ++
              toString (func_count * TIMEOUT_PER_FUNCTION) ++ " seconds"))⟩, store, st.calls⟩
        | .exnS k m st =>
          ⟨some ⟨"error", none, some (classify_exception k m)⟩, store, st.calls⟩
        | .normal st => finishResult store session_id .vNone st
        | .returned v st => finishResult store session_id v st

/-- The capability environment with no registered tools and no extra
callables, for scripts that are pure computation. -/
def cfg0 : Cfg := ⟨[], []⟩

/-- The diverging script with no suspension points: `while True: pass`. -/
def loopBody : List Stmt := [.whileStmt (.const (.vBool true)) [.passStmt]]

/-- A call to `run_user_code` never produces an envelope at any loop
budget: the modelled execution diverges without ever being cancelled. -/
def neverReturns (cfg : Cfg) (store : SessionStore) (sid : String)
    (body : List Stmt) : Prop :=
  ∀ fuel, (run_user_code cfg fuel store sid body).envelope = none

/-- A tool whose structured outcome carries all three probed attributes
with a false success flag (the `ActionResultOutput` shape). -/
def failingToolFull : ToolSpec :=
  ⟨fun _ => .vObj (some false) (some (.vStr "")) (some (.vStr "boom")) none
    "<ActionResultOutput>", 0⟩

/-- A tool whose structured outcome has a false success flag and an error
attribute but no content attribute, so `serialize_result` falls through to
`str()` and the string scan does not fire on it. -/
def failingToolBare : ToolSpec :=
  ⟨fun _ => .vObj (some false) none (some (.vStr "boom2")) none "<ToolResult>", 0⟩

/-- Capability environment registering the two failing tools. -/
def c4cfg : Cfg := ⟨[("t", failingToolFull), ("t2", failingToolBare)], []⟩

/-- Script storing the full failing outcome and returning it by name. -/
def c4script : List Stmt := [.assign ["r"] (.call "t" [] []), .ret (some (.name "r"))]

/-- Script storing the bare failing outcome and returning it by name. -/
def c4scriptBare : List Stmt := [.assign ["r"] (.call "t2" [] []), .ret (some (.name "r"))]

/-- Script calling the `final_answer` convenience binding with a value and
containing no return statement. -/
def c6script (v : PyVal) : List Stmt := [.exprStmt (.call "final_answer" [.const v] [])]

/-- A two-argument subtraction callable, order-sensitive on purpose. -/
def subFn : List PyVal → Except (String × String) PyVal
  | [.vInt a, .vInt b] => .ok (.vInt (a - b))
  | args => .error ("ValueError", "sub expects 2 args, got " ++ toString args.length)

/-- Capability environment exposing `sub` as a synchronous callable. -/
def c7cfg : Cfg := ⟨[], [("sub", subFn)]⟩

/-- Modelled from the spec (§4.1 Rewrite A): "every call-expression's named
arguments are converted to positional arguments in declaration order,
discarding the names". Given the callee's declared parameter names, the
positional arguments occupy the leading parameters and each keyword
argument is placed at its parameter's declared position; `none` when the
keywords do not exactly cover the remaining parameters. This definition
follows the specification's words and is compared against the source's
`KeywordStripper`, which has no access to any declaration. -/
def declOrderArgs (params : List String) (args : List Expr)
    (kws : List (String × Expr)) : Option (List Expr) :=
  let rest := params.drop args.length
  if rest.length == kws.length && rest.all (fun p => kws.any (fun q => q.1 = p)) then
    some (args ++ rest.filterMap (fun p => (kws.find? (fun q => q.1 = p)).map Prod.snd))
  else none

/-- A keyword-style call whose keywords are written in the opposite of the
callee's declaration order: `sub(y=2, x=1)` against `def sub(x, y)`. -/
def badCall : Expr := .call "sub" [] [("y", .const (.vInt 2)), ("x", .const (.vInt 1))]

/-- Script text whose only malformation is an unterminated triple-quoted
string (one delimiter, an odd count). -/
def c5bad : String := "x = 1\n\"\"\"oops"

/-- A concrete parser oracle for the C5 witness: it rejects exactly the
malformed text `c5bad` and accepts everything else (in particular the
repaired text) as the one-assignment tree. -/
def c5parse : String → Except String (List Stmt) := fun s =>
  if s = c5bad then .error "unterminated triple-quoted string literal (detected at line 2)"
  else .ok [.assign ["x"] (.const (.vInt 1))]

/-- A script with more than `MAX_FUNCTIONS` call expressions. -/
def body21 : List Stmt := List.replicate 21 (.exprStmt (.call "f" [] []))

/-- C3: a script whose call-expression count exceeds 20 is rejected up
front with the ValidationError envelope; the session store is untouched
and no tool invocation is dispatched. -/
theorem c3_complexity_rejection (cfg : Cfg) (fuel : Nat) (store : SessionStore)
    (sid : String) (body : List Stmt) (h : MAX_FUNCTIONS < countCallsStmts body) :
    run_user_code cfg fuel store sid body =
      ⟨some ⟨"error", none,
        some (.vStr ("Too many functions (" ++ toString (countCallsStmts body) ++
          " > " ++ toString MAX_FUNCTIONS ++ ")"))⟩, store, []⟩ := by
  unfold run_user_code
  simp only [if_pos h]

theorem c3_complexity_rejection_witness :
    run_user_code cfg0 1 emptyStore "s" body21 =
      ⟨some ⟨"error", none, some (.vStr "Too many functions (21 > 20)")⟩,
       emptyStore, []⟩ :=
  c3_complexity_rejection cfg0 1 emptyStore "s" body21 (by decide)

/-- C9: when a script has no top-level return but assigns to `result`, a
trailing `return result` is synthesized after the rewrite loop, and the
concrete script `result = 5` yields the success envelope with result
mapping exactly `{"result": 5}`. -/
theorem c9_result_convention :
    (∀ body : List Stmt, returnFound body = false →
      "result" ∈ resultVars body →
      normalizeBody body = body.map rewriteReturn ++ [.ret (some (.name "result"))])
    ∧ (run_user_code cfg0 8 emptyStore "s"
        [.assign ["result"] (.const (.vInt 5))]).envelope =
        some ⟨"success", some [("result", .vInt 5)], none⟩ := by
  constructor
  · intro body h1 h2
    unfold normalizeBody
    simp [h1, h2]
  · rfl

theorem c9_result_convention_witness :
    normalizeBody [Stmt.assign ["result"] (.const (.vInt 5))] =
      [Stmt.assign ["result"] (.const (.vInt 5)), .ret (some (.name "result"))] :=
  c9_result_convention.1 [Stmt.assign ["result"] (.const (.vInt 5))] rfl (by decide)

/-- C6 counterexample: calling the `final_answer` binding with 42 and
returning nothing yields a success envelope whose result mapping is
`{"result": None}` — the recorded argument 42 appears nowhere in it, so
the envelope does not record the final-answer value. -/
theorem c6_counterexample :
    (run_user_code cfg0 8 emptyStore "s" (c6script (.vInt 42))).envelope =
      some ⟨"success", some [("result", .vNone)], none⟩ ∧
    PyVal.vNone ≠ PyVal.vInt 42 :=
  ⟨rfl, fun h => PyVal.noConfusion h⟩

/-- C6 amended: `final_answer(v)` stores `v` under `result_holder` in the
sandbox globals via `setdefault`, but nothing reads `result_holder` back,
and with no return statement the envelope's result mapping is
`{"result": None}` for every argument value. -/
theorem c6_final_answer_behaviour (v : PyVal) :
    evalStmts cfg0 50 8 (preprocess (cfg0.tools.map Prod.fst) (c6script v))
      ⟨[], load_session_vars emptyStore "s", 0, []⟩ =
      .normal ⟨[], [("result_holder", v)], 0, []⟩ ∧
    (run_user_code cfg0 8 emptyStore "s" (c6script v)).envelope =
      some ⟨"success", some [("result", .vNone)], none⟩ :=
  ⟨rfl, rfl⟩

/-- C4 counterexample: a returned mapping holding a structured outcome
with success=False and error "boom" is reported with the message
"Error executing tool: boom" (the serialized, prefixed string caught by
the string scan), not with the outcome's own error field "boom". -/
theorem c4_counterexample :
    (run_user_code c4cfg 8 emptyStore "s" c4script).envelope =
      some ⟨"error", none, some (.vStr "Error executing tool: boom")⟩ ∧
    PyVal.vStr "Error executing tool: boom" ≠ PyVal.vStr "boom" :=
  ⟨rfl, fun h => by injection h with h1; exact absurd h1 (by decide)⟩

/-- C4 amended: for a full structured outcome (success/content/error all
present) with success=False, the string-prefix scan fires first on the
serialized value and the reported message is "Error executing tool: "
followed by the error field; the structured-outcome check reports the bare
error field only when the serialized values escape the string scan, as
with an outcome lacking a content attribute. -/
theorem c4_structured_failure_reporting :
    (run_user_code c4cfg 8 emptyStore "s" c4script).envelope =
      some ⟨"error", none, some (.vStr ("Error executing tool: " ++ "boom"))⟩ ∧
    (run_user_code c4cfg 8 emptyStore "s" c4scriptBare).envelope =
      some ⟨"error", none, some (.vStr "boom2")⟩ :=
  ⟨rfl, rfl⟩

/-- Helper: a run whose body evaluation returns a value goes through
`finishResult` (the complexity check having passed). -/
theorem run_user_code_of_returned (cfg : Cfg) (fuel : Nat) (store : SessionStore)
    (sid : String) (body : List Stmt) (v : PyVal) (st : ExecState)
    (hc : ¬ MAX_FUNCTIONS < countCallsStmts body)
    (h : evalStmts cfg (max 3 (countCallsStmts body * TIMEOUT_PER_FUNCTION)) fuel
      (preprocess (List.map Prod.fst cfg.tools) body)
      ⟨[], load_session_vars store sid, 0, []⟩ = .returned v st) :
    run_user_code cfg fuel store sid body = finishResult store sid v st := by
  simp only [run_user_code, if_neg hc]
  rw [h]

/-- Helper: a run whose body evaluation is still spinning at the given
fuel has produced no envelope. -/
theorem run_user_code_of_spin (cfg : Cfg) (fuel : Nat) (store : SessionStore)
    (sid : String) (body : List Stmt)
    (hc : ¬ MAX_FUNCTIONS < countCallsStmts body)
    (h : evalStmts cfg (max 3 (countCallsStmts body * TIMEOUT_PER_FUNCTION)) fuel
      (preprocess (List.map Prod.fst cfg.tools) body)
      ⟨[], load_session_vars store sid, 0, []⟩ = .spin) :
    run_user_code cfg fuel store sid body = ⟨none, store, []⟩ := by
  simp only [run_user_code, if_neg hc]
  rw [h]

/-- Helper: `while True: pass` spins at every fuel — each unfolding
consumes fuel without ever reaching a suspension point or the end. -/
theorem evalStmts_while_true_spin (cfg : Cfg) (tmo : Nat) :
    ∀ fuel st, evalStmts cfg tmo fuel loopBody st = .spin := by
  intro fuel
  induction fuel with
  | zero => intro st; rfl
  | succ n ih =>
    intro st
    cases n with
    | zero => rfl
    | succ m =>
      cases m with
      | zero => rfl
      | succ j => exact ih st

/-- C1 counterexample: `x = "failed"` followed by `return x` produces an
error envelope with message "failed" — the serialized-value scan turns
this structurally successful run into a Failure, so the claimed success
envelope `{"x": value}` does not hold for every assigned value. -/
theorem c1_counterexample :
    run_user_code cfg0 8 emptyStore "s"
      [.assign ["x"] (.const (.vStr "failed")), .ret (some (.name "x"))] =
      ⟨some ⟨"error", none, some (.vStr "failed")⟩, emptyStore, []⟩ := rfl

/-- C1 amended: `return x` for an identifier assigned a JSON-safe value
yields the success envelope with result exactly `{"x": value}`, provided
the value does not trigger the embedded-failure string scan and is not a
structured outcome with a falsy success flag. -/
theorem c1_bare_identifier_return (cfg : Cfg) (store : SessionStore) (sid : String)
    (v : PyVal) (h1 : serialize_result v = v) (h2 : triggersErrorScan v = false)
    (h3 : outcomeFailed v = false) :
    (run_user_code cfg 8 store sid
      [.assign ["x"] (.const v), .ret (some (.name "x"))]).envelope =
      some ⟨"success", some [("x", v)], none⟩ := by
  rw [run_user_code_of_returned cfg 8 store sid
    [Stmt.assign ["x"] (.const v), .ret (some (.name "x"))] (.vDict [("x", v)])
    ⟨[("x", v)], load_session_vars store sid, 0, []⟩ (of_decide_eq_false rfl) rfl]
  simp only [finishResult, List.map_cons, List.map_nil, h1, scanError, h2,
    Bool.false_eq_true, if_false, structuredFailure, h3]

theorem c1_bare_identifier_return_witness :
    (run_user_code cfg0 8 emptyStore "s"
      [.assign ["x"] (.const (.vInt 7)), .ret (some (.name "x"))]).envelope =
      some ⟨"success", some [("x", .vInt 7)], none⟩ :=
  c1_bare_identifier_return cfg0 emptyStore "s" (.vInt 7) rfl rfl rfl

/-- C2 counterexample: the transformed `while True: pass` script has no
suspension point, and `run_user_code` on it produces no envelope at any
loop budget — it never terminates, so in particular it never returns the
claimed TimeoutError envelope. -/
theorem c2_counterexample :
    hasAwaitStmts (preprocess (cfg0.tools.map Prod.fst) loopBody) = false ∧
    neverReturns cfg0 emptyStore "s" loopBody := by
  refine ⟨rfl, fun fuel => ?_⟩
  rw [run_user_code_of_spin cfg0 fuel emptyStore "s" loopBody (by decide)
    (evalStmts_while_true_spin cfg0 _ fuel _)]

/-- C2 amended: a script with no suspension points whose execution is
still running at every loop budget is never cancelled — `run_user_code`
never returns on it; the cooperative timeout can only fire at a
suspension point. -/
theorem c2_timeout_requires_suspension (cfg : Cfg) (store : SessionStore)
    (sid : String) (body : List Stmt)
    (hsusp : hasAwaitStmts (preprocess (cfg.tools.map Prod.fst) body) = false)
    (hc : countCallsStmts body ≤ MAX_FUNCTIONS)
    (hdiv : ∀ fuel, evalStmts cfg (max 3 (countCallsStmts body * TIMEOUT_PER_FUNCTION)) fuel
      (preprocess (cfg.tools.map Prod.fst) body)
      ⟨[], load_session_vars store sid, 0, []⟩ = .spin) :
    neverReturns cfg store sid body := by
  intro fuel
  rw [run_user_code_of_spin cfg fuel store sid body (not_lt.mpr hc) (hdiv fuel)]

theorem c2_timeout_requires_suspension_witness :
    neverReturns cfg0 emptyStore "s" loopBody :=
  c2_timeout_requires_suspension cfg0 emptyStore "s" loopBody rfl (by decide)
    (fun fuel => evalStmts_while_true_spin cfg0 _ fuel _)

/-- C5: when the raw script text fails to parse, `run_user_code` reports a
generic SyntaxError envelope even if the triple-quote repair would have
made the text parseable: `count_function_calls` parses the RAW text
before `fix_unterminated_triple_quotes` ever runs, so the repair cannot
take effect for a text-level malformation. -/
theorem c5_repair_after_parse (parse : String → Except String (List Stmt)) (cfg : Cfg)
    (fuel : Nat) (store : SessionStore) (sid : String) (txt msg : String)
    (tree : List Stmt) (hraw : parse txt = .error msg)
    (hfixed : parse (fix_unterminated_triple_quotes (textwrap_dedent (pyStrip txt))) =
      .ok tree) :
    run_user_code_text parse cfg fuel store sid txt =
      ⟨some ⟨"error", none, some (classify_exception "SyntaxError" msg)⟩, store, []⟩ := by
  unfold run_user_code_text
  rw [hraw]

theorem c5_repair_after_parse_witness :
    run_user_code_text c5parse cfg0 1 emptyStore "s" c5bad =
      ⟨some ⟨"error", none, some (classify_exception "SyntaxError"
        "unterminated triple-quoted string literal (detected at line 2)")⟩,
       emptyStore, []⟩ :=
  c5_repair_after_parse c5parse cfg0 1 emptyStore "s" c5bad
    "unterminated triple-quoted string literal (detected at line 2)"
    [.assign ["x"] (.const (.vInt 1))] rfl rfl

/-- Helper: looking each keyword name up in its own association list, in
list order, recovers the keyword values in list order (names distinct). -/
theorem kw_lookup_in_order :
    ∀ kws : List (String × Expr), (kws.map Prod.fst).Nodup →
    (kws.map Prod.fst).filterMap
      (fun p => (kws.find? (fun q => q.1 = p)).map Prod.snd) = kws.map Prod.snd := by
  intro kws
  induction kws with
  | nil => intro _; rfl
  | cons a t ih =>
    rcases a with ⟨k0, e0⟩
    intro hnodup
    simp only [List.map_cons] at hnodup ⊢
    rcases List.nodup_cons.mp hnodup with ⟨hk0, hnd⟩
    rw [List.filterMap_cons]
    have hfind : List.find? (fun q => q.1 = k0) ((k0, e0) :: t) = some (k0, e0) :=
      List.find?_cons_of_pos _ (by simp)
    rw [hfind]
    have htail : (t.map Prod.fst).filterMap
        (fun p => (List.find? (fun q => q.1 = p) ((k0, e0) :: t)).map Prod.snd) =
        (t.map Prod.fst).filterMap
        (fun p => (List.find? (fun q => q.1 = p) t).map Prod.snd) := by
      apply List.filterMap_congr
      intro p hp
      have hne : ¬ ((k0, e0).1 = p) := by
        simp only []
        intro h
        exact hk0 (h ▸ hp)
      rw [List.find?_cons_of_neg _ (by simpa using hne)]
    rw [htail, ih hnd]
    rfl

/-- C7 counterexample: for `sub(y=2, x=1)` against the declaration
`sub(x, y)`, the `KeywordStripper` appends the values in call-site order,
producing `sub(2, 1)`, while conversion in declaration order gives
`sub(1, 2)`; the two evaluate to different results (1 vs -1), so keyword
calls are not converted in the callee's declaration order. -/
theorem c7_counterexample :
    stripKeywordsExpr badCall = .call "sub" [.const (.vInt 2), .const (.vInt 1)] [] ∧
    declOrderArgs ["x", "y"] [] [("y", .const (.vInt 2)), ("x", .const (.vInt 1))] =
      some [.const (.vInt 1), .const (.vInt 2)] ∧
    evalExpr c7cfg 3 (stripKeywordsExpr badCall) ⟨[], [], 0, []⟩ =
      .ok (.vInt 1) ⟨[], [], 0, []⟩ ∧
    evalExpr c7cfg 3 (.call "sub" [.const (.vInt 1), .const (.vInt 2)] []) ⟨[], [], 0, []⟩ =
      .ok (.vInt (-1)) ⟨[], [], 0, []⟩ ∧
    PyVal.vInt 1 ≠ PyVal.vInt (-1) :=
  ⟨rfl, rfl, rfl, rfl, fun h => by injection h with h1; exact absurd h1 (by decide)⟩

/-- C7 amended: the `KeywordStripper` appends keyword-argument values as
positionals in call-site order, discarding the names; when the keywords
are written in the callee's declaration order (covering the remaining
parameters, names distinct), this coincides with declaration-order
conversion, so `f(x=1, y=2)` executes identically to `f(1, 2)`. -/
theorem c7_keyword_argument_order (f : String) (args : List Expr)
    (kws : List (String × Expr)) (params : List String)
    (horder : kws.map Prod.fst = params.drop args.length)
    (hnodup : (kws.map Prod.fst).Nodup) :
    stripKeywordsExpr (.call f args kws) =
      .call f (stripKeywordsArgs args ++ stripKeywordsKws kws) [] ∧
    declOrderArgs params args kws = some (args ++ kws.map Prod.snd) := by
  refine ⟨rfl, ?_⟩
  have hcond : ((kws.map Prod.fst).length == kws.length &&
      (kws.map Prod.fst).all fun p => kws.any fun q => decide (q.1 = p)) = true := by
    simp only [Bool.and_eq_true, beq_iff_eq, List.length_map, List.all_eq_true,
      List.any_eq_true, decide_eq_true_eq]
    refine ⟨trivial, ?_⟩
    intro p hp
    rcases List.mem_map.mp hp with ⟨q, hq, hq2⟩
    exact ⟨q, hq, hq2⟩
  unfold declOrderArgs
  simp only [← horder]
  rw [if_pos hcond]
  rw [kw_lookup_in_order kws hnodup]

theorem c7_keyword_argument_order_witness :
    stripKeywordsExpr (.call "f" [] [("x", .const (.vInt 1)), ("y", .const (.vInt 2))]) =
      .call "f" [.const (.vInt 1), .const (.vInt 2)] [] ∧
    declOrderArgs ["x", "y"] [] [("x", .const (.vInt 1)), ("y", .const (.vInt 2))] =
      some [.const (.vInt 1), .const (.vInt 2)] :=
  c7_keyword_argument_order "f" [] [("x", .const (.vInt 1)), ("y", .const (.vInt 2))]
    ["x", "y"] rfl (by decide)

/-- Helper: in the merged record `{**ex, **vars}`, a key present in `ex`
and absent from `vars` keeps its value from `ex`. -/
theorem lookupD_mergeDicts (ex vars : List (String × PyVal)) (k : String) (v : PyVal)
    (h1 : lookupD ex k = some v) (h2 : lookupD vars k = none) :
    lookupD (mergeDicts ex vars) k = some v := by
  have hvars : vars.find? (fun q => q.1 = k) = none := by
    unfold lookupD at h2
    exact Option.map_eq_none.mp h2
  unfold mergeDicts lookupD
  rw [List.find?_append]
  have hmap : (ex.map fun p =>
      match vars.find? (fun q => q.1 = p.1) with
      | some q => (p.1, q.2)
      | none => p).find? (fun p => p.1 = k) = some (k, v) := by
    induction ex with
    | nil => simp [lookupD, List.find?] at h1
    | cons p t ih =>
      rcases p with ⟨k0, v0⟩
      by_cases hk : k0 = k
      · subst hk
        have h1v : v0 = v := by
          unfold lookupD at h1
          rw [List.find?_cons_of_pos _ (by simp)] at h1
          simpa using h1
        subst h1v
        simp only [List.map_cons]
        rw [hvars]
        exact List.find?_cons_of_pos _ (by simp)
      · have h1t : lookupD t k = some v := by
          unfold lookupD at h1 ⊢
          rwa [List.find?_cons_of_neg _ (by simp [hk])] at h1
        have ihh := ih h1t
        simp only [List.map_cons]
        rcases hq : vars.find? (fun q => q.1 = k0) with _ | q
        · rw [List.find?_cons_of_neg]
          · exact ihh
          · simp [hq, hk]
        · rw [List.find?_cons_of_neg]
          · exact ihh
          · simp [hq, hk]
  rw [hmap]
  rfl

/-- C8: the session-store contract — `load` of a missing record is the
empty mapping (it never throws), `save` merges into the existing record
retaining keys absent from the new mapping, and the concrete double save
of `{"a": 1}` then `{"b": 2}` leaves the stored record
`{"a": 1, "b": 2}`. -/
theorem c8_session_store_contract :
    (∀ (store : SessionStore) (sid : String), store sid = none →
      load_session_vars store sid = [])
    ∧ (∀ (store : SessionStore) (sid : String) (vars ex : List (String × PyVal))
        (k : String) (v : PyVal),
        store sid = some ex → lookupD ex k = some v → lookupD vars k = none →
        save_session_vars store sid vars sid = some (mergeDicts ex vars) ∧
        lookupD (mergeDicts ex vars) k = some v)
    ∧ save_session_vars (save_session_vars emptyStore "s" [("a", .vInt 1)]) "s"
        [("b", .vInt 2)] "s" = some [("a", .vInt 1), ("b", .vInt 2)] := by
  refine ⟨?_, ?_, ?_⟩
  · intro store sid h
    simp [load_session_vars, h]
  · intro store sid vars ex k v hst h1 h2
    exact ⟨by simp [save_session_vars, hst], lookupD_mergeDicts ex vars k v h1 h2⟩
  · rfl

theorem c8_session_store_contract_witness :
    load_session_vars emptyStore "nosuch" = [] ∧
    save_session_vars (save_session_vars emptyStore "s" [("a", PyVal.vInt 1)]) "s"
      [("b", PyVal.vInt 2)] "s" = some (mergeDicts [("a", PyVal.vInt 1)] [("b", PyVal.vInt 2)]) ∧
    lookupD (mergeDicts [("a", PyVal.vInt 1)] [("b", PyVal.vInt 2)]) "a" = some (.vInt 1) :=
  ⟨c8_session_store_contract.1 emptyStore "nosuch" rfl,
   (c8_session_store_contract.2.1 (save_session_vars emptyStore "s" [("a", .vInt 1)]) "s"
      [("b", .vInt 2)] [("a", .vInt 1)] "a" (.vInt 1) rfl rfl rfl).1,
   (c8_session_store_contract.2.1 (save_session_vars emptyStore "s" [("a", .vInt 1)]) "s"
      [("b", .vInt 2)] [("a", .vInt 1)] "a" (.vInt 1) rfl rfl rfl).2⟩

/-- Helper: whenever `finishResult` produces an error-status envelope, it
leaves the session store unchanged — only its success branches save. -/
theorem finishResult_store_of_error (store : SessionStore) (sid : String)
    (v : PyVal) (st : ExecState) (e : Envelope)
    (he : (finishResult store sid v st).envelope = some e)
    (hs : e.status = "error") :
    (finishResult store sid v st).store = store := by
  unfold finishResult at he ⊢
  rcases v with _ | b | n | s | xs | entries | ⟨o, c, er, t, r⟩
  case vDict =>
    dsimp only [] at he ⊢
    rcases hscan : scanError (List.map (fun p => (p.1, serialize_result p.2)) entries)
      with _ | errv
    · rw [hscan] at he ⊢
      rcases hsf : structuredFailure entries with _ | m
      · rw [hsf] at he
        have h1 := congrArg Envelope.status (Option.some.inj he)
        rw [hs] at h1
        exact absurd (show ("success" : String) = "error" from h1) (by decide)
      · rfl
    · simp only [hscan]
  all_goals
    have h1 := congrArg Envelope.status (Option.some.inj he)
    rw [hs] at h1
    exact absurd (show ("success" : String) = "error" from h1) (by decide)

/-- C10: whenever `run_user_code` returns an error-status envelope —
complexity rejection, timeout, classified raise, or an embedded-failure
detection — the session store is left unchanged; the save operation runs
only on the success path. -/
theorem c10_error_leaves_store (cfg : Cfg) (fuel : Nat) (store : SessionStore)
    (sid : String) (body : List Stmt) (e : Envelope)
    (he : (run_user_code cfg fuel store sid body).envelope = some e)
    (hs : e.status = "error") :
    (run_user_code cfg fuel store sid body).store = store := by
  by_cases hc : MAX_FUNCTIONS < countCallsStmts body
  · simp only [run_user_code, if_pos hc]
  · simp only [run_user_code, if_neg hc] at he ⊢
    rcases hev : evalStmts cfg (max 3 (countCallsStmts body * TIMEOUT_PER_FUNCTION)) fuel
        (preprocess (List.map Prod.fst cfg.tools) body)
        ⟨[], load_session_vars store sid, 0, []⟩ with st | ⟨v, st⟩ | ⟨k, m, st⟩ | st | _
    · simp only [hev] at he ⊢
      exact finishResult_store_of_error store sid .vNone st e he hs
    · simp only [hev] at he ⊢
      exact finishResult_store_of_error store sid v st e he hs
    · simp only [hev]
    · simp only [hev]
    · simp only [hev] at he ⊢

theorem c10_error_leaves_store_witness :
    (run_user_code cfg0 3 emptyStore "s" [.exprStmt (.name "nope")]).store = emptyStore :=
  c10_error_leaves_store cfg0 3 emptyStore "s" [.exprStmt (.name "nope")]
    ⟨"error", none, some (classify_exception "NameError" "name \x27nope\x27 is not defined")⟩
    rfl rfl
